import Mathlib

/-!
Verification of the Nirmaan presentation-scoring engine (`scoring/` package).

The Python modules are shallowly embedded over `ℚ` (Python floats are read as
exact rationals) and `Nat`/`String`.  External collaborators — the NLTK word
and sentence tokenizers, the language-tool grammar checker, the VADER
sentiment analyzer and the sentence-transformer similarity model — are pure
inputs of the embedded functions: the scorers receive their outputs
(token list, sentence count, error count, polarity, similarity result) as
parameters, mirroring the narrow `text → metric` contracts of the source.
Python dictionaries with optional keys are embedded as structures of
`Option` fields, with `.getD` playing the role of `dict.get(key, default)`.
-/

/-! ## Basic helpers -/

/-- Python `hay.find(needle)`: index of the first occurrence of `needle`,
`none` standing for Python's `-1`. -/
def findSub : List Char → List Char → Option Nat
  | [], needle => if needle.isEmpty then some 0 else none
  | c :: t, needle =>
    if needle.isPrefixOf (c :: t) then some 0
    else (findSub t needle).map (· + 1)

/-- Python substring test `needle in hay` on strings
(`needle in hay` ⟺ `hay.find(needle) != -1`). -/
def pyIn (needle hay : String) : Bool :=
  (findSub hay.toList needle.toList).isSome

/-- Round-half-to-even on rationals, the rounding used by Python `round`. -/
def roundHalfEven (q : ℚ) : ℤ :=
  if q - ⌊q⌋ < 1 / 2 then ⌊q⌋
  else if 1 / 2 < q - ⌊q⌋ then ⌊q⌋ + 1
  else if ⌊q⌋ % 2 = 0 then ⌊q⌋ else ⌊q⌋ + 1

/-- Python `round(q, n)` (idealized on rationals). -/
def pyRound (n : Nat) (q : ℚ) : ℚ :=
  (roundHalfEven (q * 10 ^ n) : ℚ) / 10 ^ n

/-- Python `str.lower()`, charwise on the character list (the C source of
CPython lowercases per character; embedded list-wise so the kernel can
evaluate it). -/
def pyLower (s : String) : String := String.mk (s.toList.map Char.toLower)

/-- Python `str.strip()`: drop leading and trailing whitespace. -/
def pyStrip (s : String) : String :=
  String.mk (((s.toList.dropWhile Char.isWhitespace).reverse.dropWhile
    Char.isWhitespace).reverse)

/-- Display formatting of a number inside a feedback string.  Python `%`/
f-string numeric formatting is presentation-only; it is abstracted as the
standard rendering of the rational. -/
def fmtQ (q : ℚ) : String := toString q

/-! ## scoring/preprocess.py (pure parts; the NLTK tokenizers are external) -/

/-- `FILLER_WORDS` from `scoring/preprocess.py`. -/
def FILLER_WORDS : List String :=
  ["um", "uh", "like", "you know", "so", "actually", "basically",
   "right", "i mean", "well", "kinda", "sort of", "okay", "hmm", "ah"]

/-- `clean_text` from `scoring/preprocess.py`: `text.lower().strip()`. -/
def clean_text (text : String) : String := pyStrip (pyLower text)

/-- `count_filler_words` from `scoring/preprocess.py`:
`sum(1 for w in words if w in FILLER_WORDS)`. -/
def count_filler_words (words : List String) : Nat :=
  words.countP (fun w => FILLER_WORDS.contains w)

/-! ## scoring/grammar.py, scoring/vocabulary.py, scoring/sentiment.py -/

/-- `grammar_score` from `scoring/grammar.py`.  The language-tool check is
external; `errors` is the length of its match list. -/
def grammar_score (errors : Nat) (total_words : Nat) : ℚ × Nat :=
  if total_words = 0 then (10, 0)
  else
    let errors_per_100 : ℚ := ((errors : ℚ) / (total_words : ℚ)) * 100
    let score_ratio : ℚ := 1 - min (errors_per_100 / 10) 1
    let score : ℚ :=
      if 0.9 ≤ score_ratio then 10
      else if 0.7 ≤ score_ratio then 8
      else if 0.5 ≤ score_ratio then 6
      else if 0.3 ≤ score_ratio then 4
      else 2
    (score, errors)

/-- `vocabulary_score` from `scoring/vocabulary.py`; `len(set(words))` is the
number of distinct tokens. -/
def vocabulary_score (words : List String) : ℚ × ℚ :=
  if words.length = 0 then (10, 1)
  else
    let distinct : Nat := words.dedup.length
    let ttr : ℚ := (distinct : ℚ) / (words.length : ℚ)
    let score : ℚ :=
      if 0.9 ≤ ttr then 10
      else if 0.7 ≤ ttr then 8
      else if 0.5 ≤ ttr then 6
      else if 0.3 ≤ ttr then 4
      else 2
    (score, ttr)

/-- `sentiment_score` from `scoring/sentiment.py`.  The VADER analyzer is
external; `polarity` is its `pos` output. -/
def sentiment_score (polarity : ℚ) : ℚ × ℚ :=
  let score : ℚ :=
    if 0.9 ≤ polarity then 15
    else if 0.7 ≤ polarity then 12
    else if 0.5 ≤ polarity then 9
    else if 0.3 ≤ polarity then 6
    else 3
  (score, polarity)

/-! ## The rubric data model

`rubric.json` is a nested dictionary with optional keys; each level is
embedded as a structure of `Option` fields (a missing key is `none`), and
`Option.getD` plays `dict.get(key, default)`.  `{}` (all fields `none`) is
the empty dictionary produced by `dict.get(key, {})`. -/

/-- One salutation tier entry: `{"keywords": [...], "score": s}`. -/
structure TierRule where
  keywords : Option (List String) := none
  score : Option ℚ := none

/-- The `rules` dictionary of the salutation criterion. -/
structure SalRules where
  excellent : Option TierRule := none
  good : Option TierRule := none
  normal : Option TierRule := none
  no_salutation : Option TierRule := none

/-- `content_and_structure.salutation`. -/
structure SalCrit where
  weight : Option ℚ := none
  rules : Option SalRules := none

/-- One keyword group (`must_have` / `good_to_have`). -/
structure KwGroup where
  keywords : Option (List String) := none
  score_each : Option ℚ := none

/-- `content_and_structure.keyword_presence`. -/
structure KwCrit where
  weight : Option ℚ := none
  must_have : Option KwGroup := none
  good_to_have : Option KwGroup := none

/-- `flow.rules.correct_order`. -/
structure OrderRule where
  order : Option (List String) := none
  score : Option ℚ := none

/-- The `rules` dictionary of the flow criterion. -/
structure FlowRules where
  correct_order : Option OrderRule := none

/-- `content_and_structure.flow`. -/
structure FlowCrit where
  rules : Option FlowRules := none

/-- Top-level `content_and_structure` criterion. -/
structure CSCrit where
  weight : Option ℚ := none
  salutation : Option SalCrit := none
  keyword_presence : Option KwCrit := none
  flow : Option FlowCrit := none

/-- One speech-rate bucket entry (`{"score": s, ...}`). -/
structure SRBucket where
  score : Option ℚ := none

/-- The `rules` dictionary of the speech-rate criterion. -/
structure SRRules where
  too_fast : Option SRBucket := none
  fast : Option SRBucket := none
  ideal : Option SRBucket := none
  slow : Option SRBucket := none
  too_slow : Option SRBucket := none

/-- Top-level `speech_rate` criterion. -/
structure SRCrit where
  weight : Option ℚ := none
  rules : Option SRRules := none

/-- A sub-criterion carrying only a `weight` (grammar / vocabulary). -/
structure SubWeight where
  weight : Option ℚ := none

/-- Top-level `language_and_grammar` criterion. -/
structure LangCrit where
  weight : Option ℚ := none
  grammar : Option SubWeight := none
  vocabulary : Option SubWeight := none

/-- `clarity.filler_words.scoring`: the count-bucket score table. -/
structure FillerScoring where
  s0to3 : Option ℚ := none
  s4to6 : Option ℚ := none
  s7to9 : Option ℚ := none
  s10to12 : Option ℚ := none
  s13plus : Option ℚ := none

/-- `clarity.filler_words`. -/
structure FillerCfg where
  scoring : Option FillerScoring := none

/-- Top-level `clarity` criterion. -/
structure ClarityCrit where
  weight : Option ℚ := none
  filler_words : Option FillerCfg := none

/-- Top-level `engagement` criterion. -/
structure EngCrit where
  weight : Option ℚ := none

/-- The whole rubric dictionary. -/
structure Rubric where
  content_and_structure : Option CSCrit := none
  speech_rate : Option SRCrit := none
  language_and_grammar : Option LangCrit := none
  clarity : Option ClarityCrit := none
  engagement : Option EngCrit := none

/-! ## scoring/scorer.py: criterion scorers -/

/-- `_normalize` from `scoring/scorer.py`. -/
def _normalize (subscore : ℚ) (max_score : ℚ) : ℚ :=
  if max_score ≤ 0 then 0
  else max 0 (min 1 (subscore / max_score))

/-- The keyword list of an optional tier:
`rules.get(tier, {}).get("keywords", [])`. -/
def tierKeywords (t : Option TierRule) : List String :=
  (t.getD {}).keywords.getD []

/-- `score_salutation` from `scoring/scorer.py`.  A tier whose keyword list
matches is read with direct indexing `rules[tier]["score"]`, so a matched
tier lacking its `score` key raises `KeyError`: the result is `none` there. -/
def score_salutation (text : String) (rubric_salutation : SalCrit) :
    Option (ℚ × String) :=
  let txt := pyLower text
  let rules := rubric_salutation.rules.getD {}
  if (tierKeywords rules.excellent).any (fun kw => pyIn kw txt) then
    (rules.excellent.getD {}).score.map
      (fun s => (s, "Excellent salutation found (e.g., \x27excited to introduce\x27)."))
  else if (tierKeywords rules.good).any (fun kw => pyIn kw txt) then
    (rules.good.getD {}).score.map
      (fun s => (s, "Good salutation found (e.g., \x27good morning\x27, \x27hello everyone\x27)."))
  else if (tierKeywords rules.normal).any (fun kw => pyIn kw txt) then
    (rules.normal.getD {}).score.map
      (fun s => (s, "Normal salutation found (e.g., \x27hi\x27, \x27hello\x27)."))
  else
    some ((rules.no_salutation.getD {}).score.getD 0, "No clear salutation detected.")

/-- One iteration of the keyword loops in `score_keyword_presence`:
multi-word keywords match by substring in the lowercased text, single-word
keywords by membership in the token set. -/
def kwStep (words : List String) (text_lower : String) (score_each : ℚ)
    (acc : ℚ × List String) (kw : String) : ℚ × List String :=
  if pyIn " " kw then
    if pyIn kw text_lower then (acc.1 + score_each, acc.2 ++ [kw]) else acc
  else
    if words.contains kw then (acc.1 + score_each, acc.2 ++ [kw]) else acc

/-- The exact-match phase of `score_keyword_presence`: the two `for` loops
over `must_have` and `good_to_have`, accumulating `(raw_score, found)`. -/
def kwBase (words : List String) (text_lower : String) (rubric_kw : KwCrit) :
    ℚ × List String :=
  let mw := (rubric_kw.must_have.getD {}).keywords.getD []
  let gw := (rubric_kw.good_to_have.getD {}).keywords.getD []
  let seM := (rubric_kw.must_have.getD {}).score_each.getD 4
  let seG := (rubric_kw.good_to_have.getD {}).score_each.getD 2
  gw.foldl (kwStep words text_lower seG) (mw.foldl (kwStep words text_lower seM) (0, []))

/-- `score_keyword_presence` from `scoring/scorer.py`.  The external
sentence-transformer call is the parameter `simResult`: `Except.error ()`
is the provider raising, `Except.ok v` a returned average similarity. -/
def score_keyword_presence (words : List String) (text : String)
    (rubric_kw : KwCrit) (simResult : Except Unit ℚ) :
    ℚ × List String × String :=
  let mw := (rubric_kw.must_have.getD {}).keywords.getD []
  let text_lower := pyLower text
  let base := kwBase words text_lower rubric_kw
  let raw_score := base.1
  let found := base.2
  if found.length < max 1 (mw.length / 2) then
    let sim : ℚ := match simResult with
      | Except.ok v => v
      | Except.error _ => 0
    if 0.6 ≤ sim then
      let bonus : ℚ := 0.5 * (mw.map (fun _ => (rubric_kw.must_have.getD {}).score_each.getD 4)).sum
      let raw_score := raw_score + bonus
      let found := found ++ ["semantic-match"]
      (raw_score, found,
        "Found keywords: " ++ String.intercalate ", " found ++
          ". Semantic match detected (avg similarity " ++ fmtQ sim ++ "); awarded partial credit.")
    else
      (raw_score, found,
        "Found keywords: " ++ (if found.isEmpty then "none" else String.intercalate ", " found) ++
          ". Semantic match weak (avg similarity " ++ fmtQ sim ++ ").")
  else
    (raw_score, found,
      "Found keywords: " ++ (if found.isEmpty then "none" else String.intercalate ", " found) ++
        ". Sufficient exact keyword matches.")

/-- The fixed `indicators` mapping of `score_flow`. -/
def flowIndicators : List (String × List String) :=
  [("salutation",
    ["hello", "hi", "good morning", "good afternoon", "good evening",
     "good day", "excited to introduce"]),
   ("basic_details",
    ["my name is", "i am", "i\x27m", "age", "years old", "class", "grade",
     "school", "studying in", "student of"]),
   ("optional_details",
    ["family", "parents", "father", "mother", "hobby", "hobbies", "interest",
     "like to", "ambition", "goal", "dream", "strength", "weakness",
     "achievement", "fun fact"]),
   ("closing",
    ["thank you", "thanks", "that\x27s all", "bye"])]

/-- `positions[key]` in `score_flow`: the earliest occurrence over all
indicator phrases of the category (`min(pos_list)`), `none` if no phrase
occurs.  `positions.get(item)` on an unknown category is also `none`. -/
def flowPosition (text_l : String) (key : String) : Option Nat :=
  (flowIndicators.lookup key).bind fun tokens =>
    (tokens.filterMap (fun tok => findSub text_l.toList tok.toList)).min?

/-- The `seq` list of `score_flow`: categories of the target order that were
found, paired with their earliest positions, in target order. -/
def flowSeq (text_l : String) (order_spec : List String) :
    List (String × Nat) :=
  order_spec.filterMap fun item => (flowPosition text_l item).map (fun p => (item, p))

/-- `all(seq[i][1] <= seq[i+1][1] for i in range(len(seq)-1))`. -/
def nondecB : List (String × Nat) → Bool
  | [] => true
  | [_] => true
  | a :: b :: t => decide (a.2 ≤ b.2) && nondecB (b :: t)

/-- `score_flow` from `scoring/scorer.py`. -/
def score_flow (text : String) (rubric_flow : FlowCrit) : ℚ × String :=
  let order_spec := ((rubric_flow.rules.getD {}).correct_order.getD {}).order.getD []
  let text_l := pyLower text
  let seq := flowSeq text_l order_spec
  let is_correct := if seq.length < 2 then false else nondecB seq
  let score : ℚ :=
    if is_correct then ((rubric_flow.rules.getD {}).correct_order.getD {}).score.getD 5
    else 0
  let feedback :=
    if is_correct then "Order follows recommended flow."
    else "Order does not follow the recommended flow (Salutation -> Basic Details -> Optional Details -> Closing)."
  (score, feedback)

/-- Python truthiness of the optional float `duration_seconds`
(`None` and `0.0` are falsy). -/
def durTruthy : Option ℚ → Bool
  | none => false
  | some d => decide (d ≠ 0)

/-- `score_speech_rate` from `scoring/scorer.py`.  `duration_seconds` is an
optional float (`none` = Python `None`). -/
def score_speech_rate (word_count : Nat) (duration_seconds : Option ℚ)
    (rubric_sr : SRCrit) : ℚ × String :=
  if !durTruthy duration_seconds ∨ duration_seconds.getD 0 ≤ 0 ∨ word_count = 0 then
    (((rubric_sr.rules.getD {}).ideal.getD {}).score.getD 10 / 2,
      "Duration not provided; speech rate estimated as neutral.")
  else
    let wpm : ℚ := ((word_count : ℚ) / duration_seconds.getD 0) * 60
    let rules := rubric_sr.rules.getD {}
    let pair : ℚ × String :=
      if 161 < wpm then
        ((rules.too_fast.getD {}).score.getD 2, "Too fast (" ++ fmtQ wpm ++ " WPM).")
      else if 141 ≤ wpm ∧ wpm ≤ 160 then
        ((rules.fast.getD {}).score.getD 6, "Fast (" ++ fmtQ wpm ++ " WPM).")
      else if 111 ≤ wpm ∧ wpm ≤ 140 then
        ((rules.ideal.getD {}).score.getD 10, "Ideal (" ++ fmtQ wpm ++ " WPM).")
      else if 81 ≤ wpm ∧ wpm ≤ 110 then
        ((rules.slow.getD {}).score.getD 6, "Slow (" ++ fmtQ wpm ++ " WPM).")
      else
        ((rules.too_slow.getD {}).score.getD 2, "Too slow (" ++ fmtQ wpm ++ " WPM).")
    (pair.1, pair.2 ++ " (" ++ fmtQ wpm ++ " WPM)")

/-- `score_filler_words` from `scoring/scorer.py`. -/
def score_filler_words (filler_count : Nat) (total_words : Nat)
    (rubric_clarity : ClarityCrit) : ℚ × String :=
  let scoring := (rubric_clarity.filler_words.getD {}).scoring.getD {}
  if total_words = 0 then
    (scoring.s0to3.getD 15, "No words.")
  else
    let rate_percent : ℚ := ((filler_count : ℚ) / (total_words : ℚ)) * 100
    let fc := filler_count
    let score : ℚ :=
      if fc ≤ 3 then scoring.s0to3.getD 15
      else if 4 ≤ fc ∧ fc ≤ 6 then scoring.s4to6.getD 12
      else if 7 ≤ fc ∧ fc ≤ 9 then scoring.s7to9.getD 9
      else if 10 ≤ fc ∧ fc ≤ 12 then scoring.s10to12.getD 6
      else scoring.s13plus.getD 3
    (score, fmtQ (filler_count : ℚ) ++ " filler words detected (" ++ fmtQ rate_percent ++ "% of words).")

/-! ## scoring/scorer.py: `compute_scores` -/

/-- The per-call inputs of a scoring invocation.  `words` and
`sentence_count` are the outputs of the external NLTK tokenizers on the
cleaned text (`get_word_count` returns `(len(words), words)`), `gram_errors`
the language-tool match count on the raw transcript, `polarity` the VADER
`pos` polarity of the raw transcript, and `sim` the outcome of the
sentence-transformer similarity call (`Except.error ()` = the provider
raised). -/
structure Inputs where
  transcript : String
  duration_seconds : Option ℚ := none
  words : List String := []
  sentence_count : Nat := 0
  gram_errors : Nat := 0
  polarity : ℚ := 0
  sim : Except Unit ℚ := Except.error ()

/-- `components["content_and_structure"]["subscores"]["salutation"]`. -/
structure SalSub where
  raw : ℚ
  max : ℚ
  feedback : String

/-- `components["content_and_structure"]["subscores"]["keyword_presence"]`. -/
structure KwSub where
  raw : ℚ
  max : ℚ
  found : List String
  feedback : String

/-- `components["content_and_structure"]["subscores"]["flow"]`. -/
structure FlowSub where
  raw : ℚ
  max : ℚ
  feedback : String

/-- `components["content_and_structure"]`. -/
structure CSComp where
  weight : ℚ
  salutation : SalSub
  keyword_presence : KwSub
  flow : FlowSub
  raw_sum : ℚ
  max_sum : ℚ
  fraction : ℚ
  contribution : ℚ

/-- `components["speech_rate"]`. -/
structure SRComp where
  weight : ℚ
  raw : ℚ
  max : ℚ
  fraction : ℚ
  contribution : ℚ
  feedback : String

/-- `components["language_and_grammar"]["subscores"]["grammar"]`. -/
structure GramSub where
  raw : ℚ
  max : ℚ
  errors : Nat

/-- `components["language_and_grammar"]["subscores"]["vocabulary"]`. -/
structure VocabSub where
  raw : ℚ
  max : ℚ
  ttr : ℚ

/-- `components["language_and_grammar"]`. -/
structure LangComp where
  weight : ℚ
  grammar : GramSub
  vocabulary : VocabSub
  raw_sum : ℚ
  max_sum : ℚ
  fraction : ℚ
  contribution : ℚ

/-- `components["clarity"]`. -/
structure ClarityComp where
  weight : ℚ
  raw : ℚ
  max : ℚ
  fraction : ℚ
  contribution : ℚ
  feedback : String
  filler_count : Nat

/-- `components["engagement"]`. -/
structure EngComp where
  weight : ℚ
  raw : ℚ
  max : ℚ
  fraction : ℚ
  contribution : ℚ
  feedback : String

/-- The result dictionary returned by `compute_scores`. -/
structure ScoreReport where
  word_count : Nat
  sentence_count : Nat
  duration_seconds : Option ℚ
  content_and_structure : CSComp
  speech_rate : SRComp
  language_and_grammar : LangComp
  clarity : ClarityComp
  engagement : EngComp
  total_weight : ℚ
  weighted_score_sum : ℚ
  overall_score : ℚ
  feedback_summary : String

/-- The report built by `compute_scores` once `score_salutation` has
returned `(sal_score_raw, sal_feedback)`; every other step of the source is
total.  The `let` chain follows the source order of `compute_scores`. -/
def mkReport (i : Inputs) (rubric : Rubric) (sal_score_raw : ℚ)
    (sal_feedback : String) : ScoreReport :=
  let text := clean_text i.transcript
  let words := i.words
  let word_count := words.length
  let filler_count := count_filler_words words
  let cs := rubric.content_and_structure.getD {}
  let cs_weight := cs.weight.getD 0
  let salSub : SalSub :=
    { raw := sal_score_raw, max := (cs.salutation.getD {}).weight.getD 5,
      feedback := sal_feedback }
  let kwRes := score_keyword_presence words text (cs.keyword_presence.getD {}) i.sim
  let kw_max := (cs.keyword_presence.getD {}).weight.getD 30
  let kw_raw_clipped := min kwRes.1 kw_max
  let kwSub : KwSub :=
    { raw := kw_raw_clipped, max := kw_max, found := kwRes.2.1, feedback := kwRes.2.2 }
  let flowRes := score_flow text (cs.flow.getD {})
  let flow_max := (((cs.flow.getD {}).rules.getD {}).correct_order.getD {}).score.getD 5
  let flowSub : FlowSub := { raw := flowRes.1, max := flow_max, feedback := flowRes.2 }
  let cs_raw_sum := salSub.raw + kwSub.raw + flowSub.raw
  let cs_max_sum := salSub.max + kwSub.max + flowSub.max
  let cs_fraction := _normalize cs_raw_sum cs_max_sum
  let cs_contribution := cs_fraction * cs_weight
  let sr := rubric.speech_rate.getD {}
  let sr_weight := sr.weight.getD 0
  let srRes := score_speech_rate word_count i.duration_seconds sr
  let sr_fraction := _normalize srRes.1 10
  let sr_contribution := sr_fraction * sr_weight
  let lang := rubric.language_and_grammar.getD {}
  let lang_weight := lang.weight.getD 0
  let gram := grammar_score i.gram_errors word_count
  let gram_max := (lang.grammar.getD {}).weight.getD 10
  let vocab := vocabulary_score words
  let vocab_max := (lang.vocabulary.getD {}).weight.getD 10
  let lang_raw_sum := gram.1 + vocab.1
  let lang_max_sum := gram_max + vocab_max
  let lang_fraction := _normalize lang_raw_sum lang_max_sum
  let lang_contribution := lang_fraction * lang_weight
  let clarity := rubric.clarity.getD {}
  let clarity_weight := clarity.weight.getD 0
  let fil := score_filler_words filler_count word_count clarity
  let filler_fraction := _normalize fil.1 15
  let filler_contribution := filler_fraction * clarity_weight
  let engagement_weight := (rubric.engagement.getD {}).weight.getD 0
  let sent := sentiment_score i.polarity
  let sent_fraction := _normalize sent.1 15
  let sent_contribution := sent_fraction * engagement_weight
  let total_weight := cs_weight + sr_weight + lang_weight + clarity_weight + engagement_weight
  let weighted_score_sum :=
    cs_contribution + sr_contribution + lang_contribution + filler_contribution + sent_contribution
  let overall_score : ℚ :=
    if total_weight ≤ 0 then 0
    else pyRound 2 (weighted_score_sum / total_weight * 100)
  let eng_feedback := "Positive polarity (pos) = " ++ fmtQ i.polarity
  let feedback_lines : List String :=
    ["Content & Structure: " ++ fmtQ (pyRound 4 cs_fraction * 100) ++ "% of " ++
       fmtQ cs_weight ++ " -> contribution " ++ fmtQ (pyRound 3 cs_contribution) ++ ".",
     " - Salutation: " ++ sal_feedback,
     " - Keywords: " ++ kwRes.2.2,
     " - Flow: " ++ flowRes.2,
     "Speech Rate: " ++ srRes.2,
     "Grammar: " ++ fmtQ gram.1 ++ " / " ++ fmtQ gram_max ++ " (" ++
       fmtQ (gram.2 : ℚ) ++ " grammar issues)",
     "Vocabulary (TTR): " ++ fmtQ (pyRound 3 vocab.2) ++ " -> score " ++
       fmtQ vocab.1 ++ "/" ++ fmtQ vocab_max,
     "Filler words: " ++ fil.2,
     "Engagement: " ++ eng_feedback]
  { word_count := word_count
    sentence_count := i.sentence_count
    duration_seconds := i.duration_seconds
    content_and_structure :=
      { weight := cs_weight, salutation := salSub, keyword_presence := kwSub,
        flow := flowSub, raw_sum := cs_raw_sum, max_sum := cs_max_sum,
        fraction := pyRound 4 cs_fraction, contribution := pyRound 3 cs_contribution }
    speech_rate :=
      { weight := sr_weight, raw := srRes.1, max := 10,
        fraction := pyRound 4 sr_fraction, contribution := pyRound 3 sr_contribution,
        feedback := srRes.2 }
    language_and_grammar :=
      { weight := lang_weight,
        grammar := { raw := gram.1, max := gram_max, errors := gram.2 },
        vocabulary := { raw := vocab.1, max := vocab_max, ttr := pyRound 3 vocab.2 },
        raw_sum := lang_raw_sum, max_sum := lang_max_sum,
        fraction := pyRound 4 lang_fraction, contribution := pyRound 3 lang_contribution }
    clarity :=
      { weight := clarity_weight, raw := fil.1, max := 15,
        fraction := pyRound 4 filler_fraction, contribution := pyRound 3 filler_contribution,
        feedback := fil.2, filler_count := filler_count }
    engagement :=
      { weight := engagement_weight, raw := sent.1, max := 15,
        fraction := pyRound 4 sent_fraction, contribution := pyRound 3 sent_contribution,
        feedback := eng_feedback }
    total_weight := total_weight
    weighted_score_sum := pyRound 3 weighted_score_sum
    overall_score := overall_score
    feedback_summary := String.intercalate "\n" feedback_lines }

/-- `compute_scores` from `scoring/scorer.py`.  The only fallible step is
`score_salutation` (direct `rules[tier]["score"]` indexing); everything else
is total, so the call is `none` exactly when that lookup raises. -/
def compute_scores (i : Inputs) (rubric : Rubric) : Option ScoreReport :=
  (score_salutation i.transcript
      ((rubric.content_and_structure.getD {}).salutation.getD {})).map
    (fun p => mkReport i rubric p.1 p.2)

/-! ## Derived quantities used to state the claims -/

/-- The five top-level criterion weights read from a rubric, in source
order; a missing criterion or weight key defaults to `0`. -/
def rubricWeights (rubric : Rubric) : List ℚ :=
  [(rubric.content_and_structure.getD {}).weight.getD 0,
   (rubric.speech_rate.getD {}).weight.getD 0,
   (rubric.language_and_grammar.getD {}).weight.getD 0,
   (rubric.clarity.getD {}).weight.getD 0,
   (rubric.engagement.getD {}).weight.getD 0]

/-- `Σ criterion.weight * criterion.fraction` reconstructed from a report's
(unrounded) stored raw/max sums and weights. -/
def wssOfReport (r : ScoreReport) : ℚ :=
  _normalize r.content_and_structure.raw_sum r.content_and_structure.max_sum *
      r.content_and_structure.weight +
    _normalize r.speech_rate.raw r.speech_rate.max * r.speech_rate.weight +
    _normalize r.language_and_grammar.raw_sum r.language_and_grammar.max_sum *
      r.language_and_grammar.weight +
    _normalize r.clarity.raw r.clarity.max * r.clarity.weight +
    _normalize r.engagement.raw r.engagement.max * r.engagement.weight

/-- `Σ criterion.weight` over a report's five components. -/
def twOfReport (r : ScoreReport) : ℚ :=
  r.content_and_structure.weight + r.speech_rate.weight +
    r.language_and_grammar.weight + r.clarity.weight + r.engagement.weight

/-- The salutation score as §4.2 of the spec words it: the first tier in the
priority list excellent → good → normal whose keyword list has a substring
match in the lowercased text is credited; otherwise the `no_salutation`
score (default 0). -/
def salSpecScore (text : String) (rub : SalCrit) : ℚ :=
  let txt := pyLower text
  let rules := rub.rules.getD {}
  match [rules.excellent, rules.good, rules.normal].find?
      (fun t => (tierKeywords t).any (fun kw => pyIn kw txt)) with
  | some t => (t.getD {}).score.getD 0
  | none => (rules.no_salutation.getD {}).score.getD 0

/-- A tier entry, when present, carries its `score` key. -/
def tierScoredB : Option TierRule → Bool
  | none => true
  | some tr => tr.score.isSome

/-- The duration is missing (`None`), zero, or negative. -/
def durBadB : Option ℚ → Bool
  | none => true
  | some d => decide (d ≤ 0)

/-! ## Concrete instances used by witnesses and counterexamples -/

/-- Inputs for C1: a one-word transcript with no duration. -/
def c1Inputs : Inputs := { transcript := "hello", words := ["hello"], sentence_count := 1 }

/-- A rubric with a negative criterion weight whose total weight is still
positive. -/
def c1BadRubric : Rubric :=
  { content_and_structure := some { weight := some (-10) },
    speech_rate := some { weight := some 11 } }

/-- A rubric with non-negative weights only. -/
def c1GoodRubric : Rubric :=
  { content_and_structure := some { weight := some 40 },
    speech_rate := some { weight := some 10 },
    engagement := some { weight := some 10 } }

/-- The report `compute_scores` produces on `c1Inputs` / `c1GoodRubric`. -/
def c1Report : ScoreReport := mkReport c1Inputs c1GoodRubric 0 "No clear salutation detected."

/-- Inputs for C2. -/
def c2Inputs : Inputs := { transcript := "hello friends", words := ["hello", "friends"] }

/-- A rubric whose matched salutation tier score (999) exceeds the
salutation max (default 5). -/
def c2Rubric : Rubric :=
  { content_and_structure := some
      { weight := some 40,
        salutation := some
          { rules := some
              { excellent := some { keywords := some ["hello"], score := some 999 } } } } }

/-- Inputs for the C2 witness. -/
def c2WitInputs : Inputs := { transcript := "good day", words := ["good", "day"] }

/-- Rubric for the C2 witness. -/
def c2WitRubric : Rubric := { clarity := some { weight := some 20 } }

/-- The report `compute_scores` produces on `c2WitInputs` / `c2WitRubric`. -/
def c2WitReport : ScoreReport := mkReport c2WitInputs c2WitRubric 0 "No clear salutation detected."

/-- Speech-rate rules with five pairwise distinct bucket scores, to tell the
buckets apart. -/
def c3SRRules : SRCrit :=
  { rules := some
      { too_fast := some { score := some 99 }, fast := some { score := some 4 },
        ideal := some { score := some 3 }, slow := some { score := some 1 },
        too_slow := some { score := some 0 } } }

/-- Text for the C4 witness: both the good tier (`"hello everyone"`) and the
normal tier (`"hello"`) match, so priority must pick good. -/
def c4Text : String := "Hello everyone, I am glad to be here."

/-- Salutation rules for the C4 witness, all tiers scored. -/
def c4Rubric : SalCrit :=
  { rules := some
      { excellent := some { keywords := some ["excited to introduce"], score := some 10 },
        good := some { keywords := some ["good morning", "hello everyone"], score := some 7 },
        normal := some { keywords := some ["hi", "hello"], score := some 4 },
        no_salutation := some { score := some 0 } } }

/-- Words for the C5 witness: one of four must-have keywords is present. -/
def c5Words : List String := ["alpha"]

/-- Text for the C5 witness. -/
def c5Text : String := "alpha"

/-- Keyword rules for the C5 witness. -/
def c5Rubric : KwCrit :=
  { must_have := some { keywords := some ["alpha", "beta", "gamma", "delta"] } }

/-- Inputs for the C7 counterexample. -/
def c7Inputs : Inputs := { transcript := "hello friends", words := ["hello", "friends"] }

/-- A partial but well-formed rubric: the matched `excellent` tier lacks its
`score` key. -/
def c7Rubric : Rubric :=
  { content_and_structure := some
      { weight := some 40,
        salutation := some
          { rules := some { excellent := some { keywords := some ["hello"] } } } } }

/-- Inputs for the C7 witness. -/
def c7WitInputs : Inputs := { transcript := "we meet", words := ["we", "meet"] }

/-- A rubric with every top-level criterion missing. -/
def c7WitRubric : Rubric := {}

/-- Text for the C8 witness. -/
def c8Text : String := "hello everyone my name is alex i like football thank you"

/-- Flow rules for the C8 witness. -/
def c8Flow : FlowCrit :=
  { rules := some
      { correct_order := some
          { order := some ["salutation", "basic_details", "optional_details", "closing"],
            score := some 5 } } }

/-- Inputs for the C1 counterexample: empty transcript, no duration, so
every scorer takes its zero-word path. -/
def c1CxInputs : Inputs := { transcript := "" }

/-! ## Helper lemmas -/

theorem normalize_nonneg (s m : ℚ) : 0 ≤ _normalize s m := by
  unfold _normalize
  split
  · exact le_refl 0
  · exact le_max_left 0 _

theorem normalize_le_one (s m : ℚ) : _normalize s m ≤ 1 := by
  unfold _normalize
  split
  · exact zero_le_one
  · exact max_le zero_le_one (min_le_left 1 _)

theorem rhe_ge (q : ℚ) (a : ℤ) (h : (a : ℚ) ≤ q) : a ≤ roundHalfEven q := by
  unfold roundHalfEven
  have hf : a ≤ ⌊q⌋ := Int.le_floor.mpr h
  split
  · exact hf
  · split
    · omega
    · split
      · exact hf
      · omega

theorem rhe_le (q : ℚ) (b : ℤ) (h : q ≤ (b : ℚ)) : roundHalfEven q ≤ b := by
  unfold roundHalfEven
  have hf : ⌊q⌋ ≤ b := by
    calc ⌊q⌋ ≤ ⌊(b : ℚ)⌋ := Int.floor_le_floor h
      _ = b := Int.floor_intCast b
  have hkey : ∀ _ : 1 / 2 ≤ q - (⌊q⌋ : ℚ), ⌊q⌋ + 1 ≤ b := by
    intro hh
    have h1 : (⌊q⌋ : ℚ) + 1 / 2 ≤ q := by linarith
    have h2 : (⌊q⌋ : ℚ) < (b : ℚ) := by linarith
    have h3 : ⌊q⌋ < b := by exact_mod_cast h2
    omega
  split
  · exact hf
  · split
    · next h1 h2 => exact hkey (le_of_lt h2)
    · split
      · exact hf
      · next h1 h2 h3 => exact hkey (by push_neg at h1; linarith)

theorem pyRound_ge (n : Nat) (q : ℚ) (a : ℤ) (h : (a : ℚ) ≤ q) :
    (a : ℚ) ≤ pyRound n q := by
  unfold pyRound
  have hpow : (0 : ℚ) < 10 ^ n := by positivity
  rw [le_div_iff₀ hpow]
  have h1 : ((a * 10 ^ n : ℤ) : ℚ) ≤ q * 10 ^ n := by
    push_cast
    exact mul_le_mul_of_nonneg_right h (le_of_lt hpow)
  have h2 := rhe_ge (q * 10 ^ n) (a * 10 ^ n) h1
  calc (a : ℚ) * 10 ^ n = ((a * 10 ^ n : ℤ) : ℚ) := by push_cast; ring
    _ ≤ (roundHalfEven (q * 10 ^ n) : ℚ) := by exact_mod_cast h2

theorem pyRound_le (n : Nat) (q : ℚ) (b : ℤ) (h : q ≤ (b : ℚ)) :
    pyRound n q ≤ (b : ℚ) := by
  unfold pyRound
  have hpow : (0 : ℚ) < 10 ^ n := by positivity
  rw [div_le_iff₀ hpow]
  have h1 : q * 10 ^ n ≤ ((b * 10 ^ n : ℤ) : ℚ) := by
    push_cast
    exact mul_le_mul_of_nonneg_right h (le_of_lt hpow)
  have h2 := rhe_le (q * 10 ^ n) (b * 10 ^ n) h1
  calc (roundHalfEven (q * 10 ^ n) : ℚ) ≤ ((b * 10 ^ n : ℤ) : ℚ) := by exact_mod_cast h2
    _ = (b : ℚ) * 10 ^ n := by push_cast; ring

theorem kw_sim_error_eq (words : List String) (text : String) (rub : KwCrit) :
    score_keyword_presence words text rub (Except.error ()) =
      score_keyword_presence words text rub (Except.ok 0) := rfl

theorem nondecB_iff_chain (l : List (String × Nat)) :
    nondecB l = true ↔ List.Chain' (fun a b : String × Nat => a.2 ≤ b.2) l := by
  induction l with
  | nil => simp [nondecB]
  | cons a t ih =>
    cases t with
    | nil => simp [nondecB]
    | cons b t2 =>
      rw [nondecB, List.chain'_cons, Bool.and_eq_true, decide_eq_true_iff, ih]

theorem compute_scores_eq_some {i : Inputs} {rubric : Rubric} {r : ScoreReport}
    (h : compute_scores i rubric = some r) :
    ∃ s fb,
      score_salutation i.transcript
          ((rubric.content_and_structure.getD {}).salutation.getD {}) = some (s, fb) ∧
        r = mkReport i rubric s fb := by
  unfold compute_scores at h
  cases hsal : score_salutation i.transcript
      ((rubric.content_and_structure.getD {}).salutation.getD {}) with
  | none => rw [hsal] at h; simp at h
  | some p =>
    obtain ⟨s, fb⟩ := p
    rw [hsal] at h
    simp only [Option.map_some', Option.some.injEq] at h
    exact ⟨s, fb, hsal ▸ rfl, h.symm⟩

theorem sum_map_const_rat {α : Type} (l : List α) (c : ℚ) :
    (l.map (fun _ => c)).sum = c * l.length := by
  induction l with
  | nil => simp
  | cons a t ih => simp [ih]; ring

/-! ## Claims -/

/-- Claim C10: for every input (including empty ones) the leaf metric
scorers return scores from fixed finite sets independent of the rubric:
`grammar_score` is in «2,4,6,8,10» with `(10, 0)` at zero words,
`vocabulary_score` is in «2,4,6,8,10» with `ttr` in `(0,1]` and `(10, 1.0)`
on an empty word list, and `sentiment_score` is in «3,6,9,12,15». -/
theorem C10_leaf_score_ranges (errors wc : Nat) (words : List String) (pol : ℚ) :
    ((grammar_score errors wc).1 = 2 ∨ (grammar_score errors wc).1 = 4 ∨
      (grammar_score errors wc).1 = 6 ∨ (grammar_score errors wc).1 = 8 ∨
      (grammar_score errors wc).1 = 10)
    ∧ grammar_score errors 0 = (10, 0)
    ∧ ((vocabulary_score words).1 = 2 ∨ (vocabulary_score words).1 = 4 ∨
      (vocabulary_score words).1 = 6 ∨ (vocabulary_score words).1 = 8 ∨
      (vocabulary_score words).1 = 10)
    ∧ (0 < (vocabulary_score words).2 ∧ (vocabulary_score words).2 ≤ 1)
    ∧ vocabulary_score [] = (10, 1)
    ∧ ((sentiment_score pol).1 = 3 ∨ (sentiment_score pol).1 = 6 ∨
      (sentiment_score pol).1 = 9 ∨ (sentiment_score pol).1 = 12 ∨
      (sentiment_score pol).1 = 15) := by
  refine ⟨?_, rfl, ?_, ?_, rfl, ?_⟩
  · simp only [grammar_score]; split_ifs <;> norm_num
  · simp only [vocabulary_score]; split_ifs <;> norm_num
  · by_cases hw : words.length = 0
    · rw [List.length_eq_zero] at hw
      subst hw
      norm_num [vocabulary_score]
    · have hpos : 0 < words.length := Nat.pos_of_ne_zero hw
      have hne : words ≠ [] := List.length_pos.mp hpos
      have hd1 : 0 < words.dedup.length := by
        obtain ⟨a, ha⟩ := List.exists_mem_of_ne_nil words hne
        have hmem : a ∈ words.dedup := List.mem_dedup.mpr ha
        exact List.length_pos.mpr (fun hh => by simp [hh] at hmem)
      have hd2 : words.dedup.length ≤ words.length := (List.dedup_sublist words).length_le
      simp only [vocabulary_score, hw, if_false]
      constructor
      · apply div_pos
        · exact_mod_cast hd1
        · exact_mod_cast hpos
      · rw [div_le_one (by exact_mod_cast hpos)]
        exact_mod_cast hd2
  · simp only [sentiment_score]; split_ifs <;> norm_num

/-- Claim C9: whenever the duration is missing (`None`), zero or negative,
or the word count is zero, `score_speech_rate` returns exactly half the
ideal bucket score (default `10 / 2 = 5`) with the feedback noting the
duration was not provided, and never raises (it is a total function). -/
theorem C9_speech_rate_neutral_fallback (wc : Nat) (dur : Option ℚ) (rub : SRCrit)
    (h : durBadB dur = true ∨ wc = 0) :
    score_speech_rate wc dur rub =
      (((rub.rules.getD {}).ideal.getD {}).score.getD 10 / 2,
        "Duration not provided; speech rate estimated as neutral.")
    ∧ score_speech_rate wc dur {} =
      (5, "Duration not provided; speech rate estimated as neutral.") := by
  have hcond : ∀ r : SRCrit,
      score_speech_rate wc dur r =
        (((r.rules.getD {}).ideal.getD {}).score.getD 10 / 2,
          "Duration not provided; speech rate estimated as neutral.") := by
    intro r
    unfold score_speech_rate
    rw [if_pos]
    rcases h with h | h
    · cases dur with
      | none => exact Or.inl (by simp [durTruthy])
      | some d =>
        have hd : d ≤ 0 := of_decide_eq_true h
        exact Or.inr (Or.inl (by simpa using hd))
    · exact Or.inr (Or.inr h)
  refine ⟨hcond rub, ?_⟩
  rw [hcond {}]
  show ((10 : ℚ) / 2, _) = ((5 : ℚ), _)
  norm_num

/-- Claim C6: if the external similarity provider raises, the keyword
scorer behaves exactly as if the similarity were `0.0` (so no semantic
credit: the raw score is the plain exact-match score), and the whole
scoring call completes with the identical report. -/
theorem C6_similarity_error_degrades (words : List String) (text : String)
    (rub : KwCrit) (t : String) (d : Option ℚ) (ws : List String)
    (sc ge : Nat) (pol : ℚ) (rubric : Rubric) :
    score_keyword_presence words text rub (Except.error ()) =
        score_keyword_presence words text rub (Except.ok 0)
    ∧ (score_keyword_presence words text rub (Except.error ())).1 =
        (kwBase words (pyLower text) rub).1
    ∧ compute_scores ⟨t, d, ws, sc, ge, pol, Except.error ()⟩ rubric =
        compute_scores ⟨t, d, ws, sc, ge, pol, Except.ok 0⟩ rubric := by
  refine ⟨rfl, ?_, rfl⟩
  unfold score_keyword_presence
  dsimp only
  split
  · rw [if_neg (by norm_num : ¬((0.6 : ℚ) ≤ (0 : ℚ)))]
  · rfl

/-- Claim C3 (evaluating the code at the boundaries): with five pairwise
distinct bucket scores (too_fast 99, fast 4, ideal 3, slow 1, too_slow 0),
WPM 140 scores ideal and WPM 141 fast as the claim says, but WPM exactly
161 (161 words in 60 seconds) falls through every range test of
`score_speech_rate` into the `else` branch and is scored with the
`too_slow` bucket, not `too_fast`. -/
theorem C3_boundary_eval :
    (score_speech_rate 140 (some 60) c3SRRules).1 = 3
    ∧ (score_speech_rate 141 (some 60) c3SRRules).1 = 4
    ∧ (score_speech_rate 162 (some 60) c3SRRules).1 = 99
    ∧ (score_speech_rate 161 (some 60) c3SRRules).1 = 0 := by
  refine ⟨?_, ?_, ?_, ?_⟩ <;>
    norm_num [score_speech_rate, c3SRRules, durTruthy]

/-- Witness for C9: at word count 7 with duration `None` and empty rules,
the fallback applies and equals `10 / 2 = 5`. -/
theorem C9_witness :
    score_speech_rate 7 none {} =
      (((({} : SRCrit).rules.getD {}).ideal.getD {}).score.getD 10 / 2,
        "Duration not provided; speech rate estimated as neutral.")
    ∧ score_speech_rate 7 none {} =
      (5, "Duration not provided; speech rate estimated as neutral.") :=
  C9_speech_rate_neutral_fallback 7 none {} (Or.inl rfl)

/-- Claim C4: `score_salutation` credits exactly the first tier in priority
order excellent → good → normal whose keyword list has a substring match in
the lowercased text, and otherwise the `no_salutation` score (default 0) —
the score equals the first-match selection `salSpecScore`, so exactly one
tier is ever credited.  The hypotheses say each tier present carries its
`score` key (the shape §4.2 of the spec gives the rule set). -/
theorem C4_salutation_first_match (text : String) (rub : SalCrit)
    (he : tierScoredB (rub.rules.getD {}).excellent = true)
    (hg : tierScoredB (rub.rules.getD {}).good = true)
    (hn : tierScoredB (rub.rules.getD {}).normal = true) :
    (score_salutation text rub).map Prod.fst = some (salSpecScore text rub) := by
  simp only [score_salutation, salSpecScore]
  by_cases hE : ((tierKeywords (rub.rules.getD {}).excellent).any
      (fun kw => pyIn kw (pyLower text))) = true
  · rw [if_pos hE, List.find?_cons_of_pos
      (p := fun t => (tierKeywords t).any fun kw => pyIn kw (pyLower text)) _ hE]
    cases hEt : (rub.rules.getD {}).excellent with
    | none => rw [hEt] at hE; simp [tierKeywords] at hE
    | some tr =>
      rw [hEt] at he
      cases hs : tr.score with
      | none => rw [tierScoredB, hs] at he; simp at he
      | some s => simp [hEt, hs]
  · rw [if_neg hE, List.find?_cons_of_neg
      (p := fun t => (tierKeywords t).any fun kw => pyIn kw (pyLower text)) _ (by simpa using hE)]
    by_cases hG : ((tierKeywords (rub.rules.getD {}).good).any
        (fun kw => pyIn kw (pyLower text))) = true
    · rw [if_pos hG, List.find?_cons_of_pos
        (p := fun t => (tierKeywords t).any fun kw => pyIn kw (pyLower text)) _ hG]
      cases hGt : (rub.rules.getD {}).good with
      | none => rw [hGt] at hG; simp [tierKeywords] at hG
      | some tr =>
        rw [hGt] at hg
        cases hs : tr.score with
        | none => rw [tierScoredB, hs] at hg; simp at hg
        | some s => simp [hGt, hs]
    · rw [if_neg hG, List.find?_cons_of_neg
        (p := fun t => (tierKeywords t).any fun kw => pyIn kw (pyLower text)) _ (by simpa using hG)]
      by_cases hN : ((tierKeywords (rub.rules.getD {}).normal).any
          (fun kw => pyIn kw (pyLower text))) = true
      · rw [if_pos hN, List.find?_cons_of_pos
          (p := fun t => (tierKeywords t).any fun kw => pyIn kw (pyLower text)) _ hN]
        cases hNt : (rub.rules.getD {}).normal with
        | none => rw [hNt] at hN; simp [tierKeywords] at hN
        | some tr =>
          rw [hNt] at hn
          cases hs : tr.score with
          | none => rw [tierScoredB, hs] at hn; simp at hn
          | some s => simp [hNt, hs]
      · rw [if_neg hN, List.find?_cons_of_neg
          (p := fun t => (tierKeywords t).any fun kw => pyIn kw (pyLower text)) _ (by simpa using hN)]
        simp

/-- Witness for C4: on `c4Text` both the good and the normal tier keyword
lists match, and the credited score is the good tier's 7. -/
theorem C4_witness :
    (score_salutation c4Text c4Rubric).map Prod.fst = some (salSpecScore c4Text c4Rubric)
    ∧ (score_salutation c4Text c4Rubric).map Prod.fst = some 7 :=
  ⟨C4_salutation_first_match c4Text c4Rubric rfl rfl rfl, by decide⟩

/-- Claim C5: when fewer than `max(1, |must_have| / 2)` keywords matched and
the similarity provider returns an average similarity ≥ 0.6, the keyword
scorer adds a bonus of exactly `0.5 * score_each * |must_have|` to the raw
score and appends the token `"semantic-match"` to the found list; and in the
report the keyword raw score is the scorer output clipped above to the
criterion's configured maximum weight (default 30). -/
theorem C5_semantic_fallback_bonus (words : List String) (text : String)
    (rub : KwCrit) (s : ℚ)
    (hfew : (kwBase words (pyLower text) rub).2.length <
      max 1 (((rub.must_have.getD {}).keywords.getD []).length / 2))
    (hs : (0.6 : ℚ) ≤ s) :
    (score_keyword_presence words text rub (Except.ok s)).1 =
        (kwBase words (pyLower text) rub).1 +
          1 / 2 * (rub.must_have.getD {}).score_each.getD 4 *
            ((rub.must_have.getD {}).keywords.getD []).length
    ∧ (score_keyword_presence words text rub (Except.ok s)).2.1 =
        (kwBase words (pyLower text) rub).2 ++ ["semantic-match"]
    ∧ ∀ (i : Inputs) (rubric : Rubric) (r : ScoreReport),
        compute_scores i rubric = some r →
          r.content_and_structure.keyword_presence.raw =
            min (score_keyword_presence i.words (clean_text i.transcript)
                  ((rubric.content_and_structure.getD {}).keyword_presence.getD {}) i.sim).1
              (((rubric.content_and_structure.getD {}).keyword_presence.getD {}).weight.getD 30) := by
  refine ⟨?_, ?_, ?_⟩
  · simp only [score_keyword_presence]
    rw [if_pos hfew, if_pos hs]
    simp only [sum_map_const_rat]
    ring_nf
  · simp only [score_keyword_presence]
    rw [if_pos hfew, if_pos hs]
  · intro i rubric r h
    obtain ⟨sv, fb, hsal, rfl⟩ := compute_scores_eq_some h
    rfl

/-- Witness for C5: with one of four must-have keywords matched
(1 < max(1, 4/2) = 2) and similarity 0.7 ≥ 0.6 the bonus applies. -/
theorem C5_witness :
    (score_keyword_presence c5Words c5Text c5Rubric (Except.ok 0.7)).1 =
        (kwBase c5Words (pyLower c5Text) c5Rubric).1 +
          1 / 2 * (c5Rubric.must_have.getD {}).score_each.getD 4 *
            ((c5Rubric.must_have.getD {}).keywords.getD []).length
    ∧ (score_keyword_presence c5Words c5Text c5Rubric (Except.ok 0.7)).2.1 =
        (kwBase c5Words (pyLower c5Text) c5Rubric).2 ++ ["semantic-match"]
    ∧ ∀ (i : Inputs) (rubric : Rubric) (r : ScoreReport),
        compute_scores i rubric = some r →
          r.content_and_structure.keyword_presence.raw =
            min (score_keyword_presence i.words (clean_text i.transcript)
                  ((rubric.content_and_structure.getD {}).keyword_presence.getD {}) i.sim).1
              (((rubric.content_and_structure.getD {}).keyword_presence.getD {}).weight.getD 30) :=
  C5_semantic_fallback_bonus c5Words c5Text c5Rubric 0.7 (by decide) (by norm_num)


/-- Claim C8: the flow score is the configured score exactly when at least
two categories of the target order were located (each at the earliest
position of any of its indicator phrases) and their positions are
non-decreasing in target order, and `0` otherwise — a binary outcome; with
fewer than two found categories it is always `0`; and every entry of the
found sequence is a target-order category located at the minimum of its
indicator-phrase occurrence positions. -/
theorem C8_flow_order_binary (text : String) (rub : FlowCrit) :
    ((score_flow text rub).1 =
      if 2 ≤ (flowSeq (pyLower text)
            (((rub.rules.getD {}).correct_order.getD {}).order.getD [])).length
          ∧ List.Chain' (fun a b : String × Nat => a.2 ≤ b.2)
            (flowSeq (pyLower text)
              (((rub.rules.getD {}).correct_order.getD {}).order.getD []))
        then ((rub.rules.getD {}).correct_order.getD {}).score.getD 5 else 0)
    ∧ ((score_flow text rub).1 = 0 ∨
        (score_flow text rub).1 = ((rub.rules.getD {}).correct_order.getD {}).score.getD 5)
    ∧ ((flowSeq (pyLower text)
          (((rub.rules.getD {}).correct_order.getD {}).order.getD [])).length < 2 →
        (score_flow text rub).1 = 0)
    ∧ ∀ cat p,
        (cat, p) ∈ flowSeq (pyLower text)
            (((rub.rules.getD {}).correct_order.getD {}).order.getD []) →
          cat ∈ ((rub.rules.getD {}).correct_order.getD {}).order.getD []
          ∧ ∃ toks, flowIndicators.lookup cat = some toks
              ∧ (∃ tok ∈ toks, findSub (pyLower text).toList tok.toList = some p)
              ∧ ∀ tok ∈ toks, ∀ q,
                  findSub (pyLower text).toList tok.toList = some q → p ≤ q := by
  have hmain : (score_flow text rub).1 =
      if 2 ≤ (flowSeq (pyLower text)
            (((rub.rules.getD {}).correct_order.getD {}).order.getD [])).length
          ∧ List.Chain' (fun a b : String × Nat => a.2 ≤ b.2)
            (flowSeq (pyLower text)
              (((rub.rules.getD {}).correct_order.getD {}).order.getD []))
        then ((rub.rules.getD {}).correct_order.getD {}).score.getD 5 else 0 := by
    simp only [score_flow]
    by_cases h2 : (flowSeq (pyLower text)
        (((rub.rules.getD {}).correct_order.getD {}).order.getD [])).length < 2
    · rw [if_pos h2, if_neg Bool.false_ne_true,
        if_neg (fun hh => absurd hh.1 (by omega))]
    · rw [if_neg h2]
      by_cases hc : nondecB (flowSeq (pyLower text)
          (((rub.rules.getD {}).correct_order.getD {}).order.getD [])) = true
      · rw [if_pos hc, if_pos ⟨by omega, (nondecB_iff_chain _).mp hc⟩]
      · rw [if_neg hc, if_neg (fun hh => hc ((nondecB_iff_chain _).mpr hh.2))]
  refine ⟨hmain, ?_, ?_, ?_⟩
  · rw [hmain]; split_ifs <;> simp
  · intro h
    rw [hmain, if_neg (fun hh => absurd hh.1 (by omega))]
  · intro cat p hmem
    simp only [flowSeq, List.mem_filterMap] at hmem
    obtain ⟨a, ha, hfa⟩ := hmem
    rw [Option.map_eq_some'] at hfa
    obtain ⟨q, hq, heq⟩ := hfa
    cases heq
    refine ⟨ha, ?_⟩
    simp only [flowPosition, Option.bind_eq_some] at hq
    obtain ⟨toks, htoks, hmin⟩ := hq
    have hspec := (List.min?_eq_some_iff Nat.le_refl (fun a b => by omega)
      (fun a b c => by omega)).mp hmin
    refine ⟨toks, htoks, ?_, ?_⟩
    · simpa [List.mem_filterMap] using hspec.1
    · intro tok htk qq hq2
      exact hspec.2 qq (List.mem_filterMap.mpr ⟨tok, htk, hq2⟩)

theorem pyRound_zero (n : Nat) : pyRound n 0 = 0 := by
  norm_num [pyRound, roundHalfEven]

theorem pyRound4_norm_bounds (s m : ℚ) :
    0 ≤ pyRound 4 (_normalize s m) ∧ pyRound 4 (_normalize s m) ≤ 1 := by
  constructor
  · have := pyRound_ge 4 (_normalize s m) 0 (by simpa using normalize_nonneg s m)
    simpa using this
  · have := pyRound_le 4 (_normalize s m) 1 (by simpa using normalize_le_one s m)
    simpa using this

theorem overall_bound_aux (f1 f2 f3 f4 f5 w1 w2 w3 w4 w5 : ℚ)
    (hf1 : 0 ≤ f1) (hf1' : f1 ≤ 1) (hf2 : 0 ≤ f2) (hf2' : f2 ≤ 1)
    (hf3 : 0 ≤ f3) (hf3' : f3 ≤ 1) (hf4 : 0 ≤ f4) (hf4' : f4 ≤ 1)
    (hf5 : 0 ≤ f5) (hf5' : f5 ≤ 1)
    (hw1 : 0 ≤ w1) (hw2 : 0 ≤ w2) (hw3 : 0 ≤ w3) (hw4 : 0 ≤ w4) (hw5 : 0 ≤ w5)
    (hpos : 0 < w1 + w2 + w3 + w4 + w5) :
    0 ≤ (if w1 + w2 + w3 + w4 + w5 ≤ 0 then (0 : ℚ)
        else pyRound 2 ((f1 * w1 + f2 * w2 + f3 * w3 + f4 * w4 + f5 * w5) /
          (w1 + w2 + w3 + w4 + w5) * 100))
    ∧ (if w1 + w2 + w3 + w4 + w5 ≤ 0 then (0 : ℚ)
        else pyRound 2 ((f1 * w1 + f2 * w2 + f3 * w3 + f4 * w4 + f5 * w5) /
          (w1 + w2 + w3 + w4 + w5) * 100)) ≤ 100 := by
  have hwss0 : 0 ≤ f1 * w1 + f2 * w2 + f3 * w3 + f4 * w4 + f5 * w5 := by
    have := mul_nonneg hf1 hw1
    have := mul_nonneg hf2 hw2
    have := mul_nonneg hf3 hw3
    have := mul_nonneg hf4 hw4
    have := mul_nonneg hf5 hw5
    linarith
  have hwss1 : f1 * w1 + f2 * w2 + f3 * w3 + f4 * w4 + f5 * w5 ≤
      w1 + w2 + w3 + w4 + w5 := by
    have := mul_le_of_le_one_left hw1 hf1'
    have := mul_le_of_le_one_left hw2 hf2'
    have := mul_le_of_le_one_left hw3 hf3'
    have := mul_le_of_le_one_left hw4 hf4'
    have := mul_le_of_le_one_left hw5 hf5'
    linarith
  have hdiv0 : 0 ≤ (f1 * w1 + f2 * w2 + f3 * w3 + f4 * w4 + f5 * w5) /
      (w1 + w2 + w3 + w4 + w5) := div_nonneg hwss0 (le_of_lt hpos)
  have hdiv1 : (f1 * w1 + f2 * w2 + f3 * w3 + f4 * w4 + f5 * w5) /
      (w1 + w2 + w3 + w4 + w5) ≤ 1 := (div_le_one hpos).mpr hwss1
  rw [if_neg (not_le.mpr hpos)]
  constructor
  · have := pyRound_ge 2 ((f1 * w1 + f2 * w2 + f3 * w3 + f4 * w4 + f5 * w5) /
      (w1 + w2 + w3 + w4 + w5) * 100) 0 (by push_cast; nlinarith)
    simpa using this
  · have := pyRound_le 2 ((f1 * w1 + f2 * w2 + f3 * w3 + f4 * w4 + f5 * w5) /
      (w1 + w2 + w3 + w4 + w5) * 100) 100 (by push_cast; nlinarith)
    simpa using this

/-- Claim C1 (amended): the report's total weight is the sum of the five
criterion weights; the overall score is `0` whenever the total weight is
`≤ 0` (in particular when it is `0`); when the total weight is positive the
overall score is `100 * (Σ weight·fraction) / (Σ weight)` rounded to two
decimals, with each fraction the clamped `raw_sum / max_sum`; and — the
amendment — the overall score lies in `[0, 100]` when additionally every
criterion weight is non-negative.  (As stated, with an arbitrary rubric, the
range claim is false: see the counterexample with a negative weight.) -/
theorem C1_overall_score_formula (i : Inputs) (rubric : Rubric) (r : ScoreReport)
    (h : compute_scores i rubric = some r) :
    r.total_weight = (rubricWeights rubric).sum
    ∧ (r.total_weight ≤ 0 → r.overall_score = 0)
    ∧ (0 < r.total_weight →
        r.overall_score = pyRound 2 (100 * wssOfReport r / r.total_weight))
    ∧ (0 < r.total_weight → (∀ w ∈ rubricWeights rubric, 0 ≤ w) →
        0 ≤ r.overall_score ∧ r.overall_score ≤ 100) := by
  obtain ⟨s, fb, hsal, rfl⟩ := compute_scores_eq_some h
  simp only [wssOfReport, rubricWeights, mkReport, List.sum_cons, List.sum_nil,
    List.mem_cons, List.not_mem_nil, or_false]
  refine ⟨by ring, ?_, ?_, ?_⟩
  · intro hle
    rw [if_pos hle]
  · intro hpos
    rw [if_neg (not_le.mpr hpos)]
    congr 1
    ring
  · intro hpos hw
    have h1 := hw _ (Or.inl rfl)
    have h2 := hw _ (Or.inr (Or.inl rfl))
    have h3 := hw _ (Or.inr (Or.inr (Or.inl rfl)))
    have h4 := hw _ (Or.inr (Or.inr (Or.inr (Or.inl rfl))))
    have h5 := hw _ (Or.inr (Or.inr (Or.inr (Or.inr rfl))))
    exact overall_bound_aux _ _ _ _ _ _ _ _ _ _
      (normalize_nonneg _ _) (normalize_le_one _ _)
      (normalize_nonneg _ _) (normalize_le_one _ _)
      (normalize_nonneg _ _) (normalize_le_one _ _)
      (normalize_nonneg _ _) (normalize_le_one _ _)
      (normalize_nonneg _ _) (normalize_le_one _ _)
      h1 h2 h3 h4 h5 hpos

/-- Counterexample for C1 as stated: with the rubric giving
content_and_structure weight −10 and speech_rate weight 11 (total weight 1
> 0) and an empty transcript, the overall score is 550, outside `[0, 100]`. -/
theorem C1_counterexample :
    (compute_scores c1CxInputs c1BadRubric).map
        (fun r => (r.total_weight, r.overall_score)) = some (1, 550)
    ∧ (0 : ℚ) < 1 ∧ ¬((550 : ℚ) ≤ 100) := by
  refine ⟨?_, by norm_num, by norm_num⟩
  have hsal : score_salutation c1CxInputs.transcript
      ((c1BadRubric.content_and_structure.getD {}).salutation.getD {}) =
      some (0, "No clear salutation detected.") := rfl
  unfold compute_scores
  rw [hsal]
  simp only [Option.map_some', Option.some.injEq, Prod.mk.injEq]
  constructor
  · norm_num [mkReport, c1CxInputs, c1BadRubric]
  · norm_num [mkReport, c1CxInputs, c1BadRubric, score_keyword_presence, kwBase,
      score_flow, flowSeq, score_speech_rate, durTruthy, grammar_score,
      vocabulary_score, sentiment_score, score_filler_words, count_filler_words,
      clean_text, pyLower, pyStrip, _normalize, pyRound, roundHalfEven]

/-- Witness for C1 on a rubric with non-negative weights. -/
theorem C1_witness :
    c1Report.total_weight = (rubricWeights c1GoodRubric).sum
    ∧ (c1Report.total_weight ≤ 0 → c1Report.overall_score = 0)
    ∧ (0 < c1Report.total_weight →
        c1Report.overall_score =
          pyRound 2 (100 * wssOfReport c1Report / c1Report.total_weight))
    ∧ (0 < c1Report.total_weight → (∀ w ∈ rubricWeights c1GoodRubric, 0 ≤ w) →
        0 ≤ c1Report.overall_score ∧ c1Report.overall_score ≤ 100) :=
  C1_overall_score_formula c1Inputs c1GoodRubric c1Report (by rfl)

/-- Claim C2 (amended): raw scores are NOT clamped into `[0, max]` before
aggregation (see the counterexample: a matched salutation tier score 999
enters the report against max 5).  What the code does clamp is each
criterion's fraction — every stored fraction lies in `[0, 1]`, the weighted
sum aggregates the clamped fractions — and the keyword-presence raw score,
which is clipped above to its configured max. -/
theorem C2_fractions_clamped (i : Inputs) (rubric : Rubric) (r : ScoreReport)
    (h : compute_scores i rubric = some r) :
    (0 ≤ r.content_and_structure.fraction ∧ r.content_and_structure.fraction ≤ 1)
    ∧ (0 ≤ r.speech_rate.fraction ∧ r.speech_rate.fraction ≤ 1)
    ∧ (0 ≤ r.language_and_grammar.fraction ∧ r.language_and_grammar.fraction ≤ 1)
    ∧ (0 ≤ r.clarity.fraction ∧ r.clarity.fraction ≤ 1)
    ∧ (0 ≤ r.engagement.fraction ∧ r.engagement.fraction ≤ 1)
    ∧ r.content_and_structure.keyword_presence.raw ≤
        r.content_and_structure.keyword_presence.max
    ∧ r.weighted_score_sum = pyRound 3 (wssOfReport r) := by
  obtain ⟨s, fb, hsal, rfl⟩ := compute_scores_eq_some h
  simp only [wssOfReport, mkReport]
  refine ⟨pyRound4_norm_bounds _ _, pyRound4_norm_bounds _ _,
    pyRound4_norm_bounds _ _, pyRound4_norm_bounds _ _, pyRound4_norm_bounds _ _,
    min_le_right _ _, ?_⟩
  trivial

/-- Counterexample for C2 as stated: with a matched salutation tier scored
999 (max = default weight 5), the report's salutation raw score is 999,
violating `raw ≤ max`. -/
theorem C2_counterexample :
    (compute_scores c2Inputs c2Rubric).map
        (fun r => (r.content_and_structure.salutation.raw,
          r.content_and_structure.salutation.max)) = some (999, 5)
    ∧ ¬((999 : ℚ) ≤ 5) := by
  constructor
  · rfl
  · norm_num

/-- Witness for C2 (amended) on a concrete call. -/
theorem C2_witness :
    (0 ≤ c2WitReport.content_and_structure.fraction ∧
      c2WitReport.content_and_structure.fraction ≤ 1)
    ∧ (0 ≤ c2WitReport.speech_rate.fraction ∧ c2WitReport.speech_rate.fraction ≤ 1)
    ∧ (0 ≤ c2WitReport.language_and_grammar.fraction ∧
        c2WitReport.language_and_grammar.fraction ≤ 1)
    ∧ (0 ≤ c2WitReport.clarity.fraction ∧ c2WitReport.clarity.fraction ≤ 1)
    ∧ (0 ≤ c2WitReport.engagement.fraction ∧ c2WitReport.engagement.fraction ≤ 1)
    ∧ c2WitReport.content_and_structure.keyword_presence.raw ≤
        c2WitReport.content_and_structure.keyword_presence.max
    ∧ c2WitReport.weighted_score_sum = pyRound 3 (wssOfReport c2WitReport) :=
  C2_fractions_clamped c2WitInputs c2WitRubric c2WitReport (by rfl)

/-- Claim C7 (amended): every rubric access in the scorers defaults missing
keys, EXCEPT that `score_salutation` reads a matched tier's score by direct
indexing and so raises on a matched tier lacking its `score` key (see the
counterexample).  Whenever the salutation lookup succeeds, the whole
scoring call completes, and a missing top-level criterion enters the report
with weight 0 and contribution 0 — excluded from the weighted average
rather than crashing. -/
theorem C7_partial_rubric_defaults (i : Inputs) (rubric : Rubric)
    (hsal : (score_salutation i.transcript
        ((rubric.content_and_structure.getD {}).salutation.getD {})).isSome = true) :
    (compute_scores i rubric).isSome = true
    ∧ ∀ r, compute_scores i rubric = some r →
        (rubric.content_and_structure = none →
          r.content_and_structure.weight = 0 ∧ r.content_and_structure.contribution = 0)
        ∧ (rubric.speech_rate = none →
          r.speech_rate.weight = 0 ∧ r.speech_rate.contribution = 0)
        ∧ (rubric.language_and_grammar = none →
          r.language_and_grammar.weight = 0 ∧ r.language_and_grammar.contribution = 0)
        ∧ (rubric.clarity = none →
          r.clarity.weight = 0 ∧ r.clarity.contribution = 0)
        ∧ (rubric.engagement = none →
          r.engagement.weight = 0 ∧ r.engagement.contribution = 0) := by
  constructor
  · unfold compute_scores
    rw [Option.isSome_map']
    exact hsal
  · intro r h
    obtain ⟨s, fb, hsal2, rfl⟩ := compute_scores_eq_some h
    refine ⟨fun hnone => ?_, fun hnone => ?_, fun hnone => ?_, fun hnone => ?_,
      fun hnone => ?_⟩ <;>
      constructor <;>
      simp [mkReport, hnone, pyRound_zero]

/-- Counterexample for C7: a partial but well-formed rubric whose matched
`excellent` salutation tier lacks its `score` key makes `compute_scores`
raise (`KeyError` on `rules["excellent"]["score"]`): the embedded call
returns `none`. -/
theorem C7_counterexample : compute_scores c7Inputs c7Rubric = none := rfl

/-- Witness for C7 on the empty rubric (every top-level criterion missing). -/
theorem C7_witness :
    (compute_scores c7WitInputs c7WitRubric).isSome = true
    ∧ ∀ r, compute_scores c7WitInputs c7WitRubric = some r →
        (c7WitRubric.content_and_structure = none →
          r.content_and_structure.weight = 0 ∧ r.content_and_structure.contribution = 0)
        ∧ (c7WitRubric.speech_rate = none →
          r.speech_rate.weight = 0 ∧ r.speech_rate.contribution = 0)
        ∧ (c7WitRubric.language_and_grammar = none →
          r.language_and_grammar.weight = 0 ∧ r.language_and_grammar.contribution = 0)
        ∧ (c7WitRubric.clarity = none →
          r.clarity.weight = 0 ∧ r.clarity.contribution = 0)
        ∧ (c7WitRubric.engagement = none →
          r.engagement.weight = 0 ∧ r.engagement.contribution = 0) :=
  C7_partial_rubric_defaults c7WitInputs c7WitRubric (by rfl)

/-- Witness for C8 at a concrete transcript and flow rule. -/
theorem C8_witness :
    ((score_flow c8Text c8Flow).1 =
      if 2 ≤ (flowSeq (pyLower c8Text)
            (((c8Flow.rules.getD {}).correct_order.getD {}).order.getD [])).length
          ∧ List.Chain' (fun a b : String × Nat => a.2 ≤ b.2)
            (flowSeq (pyLower c8Text)
              (((c8Flow.rules.getD {}).correct_order.getD {}).order.getD []))
        then ((c8Flow.rules.getD {}).correct_order.getD {}).score.getD 5 else 0)
    ∧ ((score_flow c8Text c8Flow).1 = 0 ∨
        (score_flow c8Text c8Flow).1 =
          ((c8Flow.rules.getD {}).correct_order.getD {}).score.getD 5)
    ∧ ((flowSeq (pyLower c8Text)
          (((c8Flow.rules.getD {}).correct_order.getD {}).order.getD [])).length < 2 →
        (score_flow c8Text c8Flow).1 = 0)
    ∧ ∀ cat p,
        (cat, p) ∈ flowSeq (pyLower c8Text)
            (((c8Flow.rules.getD {}).correct_order.getD {}).order.getD []) →
          cat ∈ ((c8Flow.rules.getD {}).correct_order.getD {}).order.getD []
          ∧ ∃ toks, flowIndicators.lookup cat = some toks
              ∧ (∃ tok ∈ toks, findSub (pyLower c8Text).toList tok.toList = some p)
              ∧ ∀ tok ∈ toks, ∀ q,
                  findSub (pyLower c8Text).toList tok.toList = some q → p ≤ q :=
  C8_flow_order_binary c8Text c8Flow
